import Mathlib

/-!
Verification of the aviation-traffic analysis engine
(`data_exploration/utilities.py` and `data_exploration/analysis_functions.py`).

The pandas pipeline is shallowly embedded over lists of records:

* a DataFrame of traffic rows becomes `List TrafficRecord`;
* `groupby(key)[cols].sum()` becomes: sort the deduplicated keys ascending
  (pandas sorts group keys) and pair each key with the sum of the column over
  the records having that key;
* `Series.max()` / `.min()` become `listMax` / `listMin`;
* `nlargest` / `nsmallest` become a sort by the score followed by `take`;
* float numbers become exact rationals; Python string formatting
  (`int(v)`, `v:.1f`, `v:.3f`) is modelled by `truncInt` / `formatFixed`
  (round half to even, which is what printf-style float formatting does);
* a Python `raise` becomes `Except.error`; functions whose bodies contain
  no `raise` are total and keep a plain return type.
-/

set_option maxHeartbeats 3200000
set_option maxRecDepth 4000

/-! ## List helpers: stable insertion sort, max / min of a column, mean -/

/-- Insert `x` after every element `y` with `le y x` (stable insertion). -/
def insertLe {α : Type} (le : α → α → Bool) (x : α) : List α → List α
  | [] => [x]
  | y :: ys => if le y x then y :: insertLe le x ys else x :: y :: ys

/-- Insertion sort by a boolean comparison; models pandas sorting. -/
def sortBy {α : Type} (le : α → α → Bool) : List α → List α
  | [] => []
  | x :: xs => insertLe le x (sortBy le xs)

/-- Lexicographic comparison of strings (code-point order on the character
lists, as for Python strings). -/
def strLe (a b : String) : Bool := decide (a.data ≤ b.data)

/-- `Series.max()` over a column, `none` on an empty column. -/
def listMax {α : Type} [LinearOrder α] : List α → Option α
  | [] => none
  | x :: xs =>
    some (match listMax xs with
      | none => x
      | some m => if x ≤ m then m else x)

/-- `Series.min()` over a column, `none` on an empty column. -/
def listMin {α : Type} [LinearOrder α] : List α → Option α
  | [] => none
  | x :: xs =>
    some (match listMin xs with
      | none => x
      | some m => if m ≤ x then m else x)

/-- `Series.mean()` of a nonempty column. -/
def mean (l : List ℚ) : ℚ := l.sum / l.length

/-! ## Number rendering (Python `int(v)`, `f-string` fixed-point formats) -/

/-- The decimal digit character for `d < 10`. -/
def digitChar (d : Nat) : Char := Char.ofNat (48 + d)

/-- Decimal digits, most significant first; structural recursion on a fuel
argument that is always sufficient (a number `n` has at most `n + 1` digits,
so the fuel of `natChars` is never exhausted). -/
def natCharsAux : Nat → Nat → List Char
  | 0, _ => []
  | fuel + 1, n =>
    if n < 10 then [digitChar n]
    else natCharsAux fuel (n / 10) ++ [digitChar (n % 10)]

/-- Decimal digits of a natural number, most significant first. -/
def natChars (n : Nat) : List Char := natCharsAux (n + 1) n

/-- Exactly `k` decimal digits of `n % 10^k`, zero padded. -/
def natCharsPad (k n : Nat) : List Char :=
  match k with
  | 0 => []
  | k + 1 => natCharsPad k (n / 10) ++ [digitChar (n % 10)]

/-- Decimal rendering of an integer. -/
def intStr (i : Int) : String :=
  (if i < 0 then "-" else "") ++ String.mk (natChars i.natAbs)

/-- Python `int(v)`: truncation of a rational toward zero. -/
def truncInt (v : ℚ) : Int := if 0 ≤ v then ⌊v⌋ else -⌊-v⌋

/-- Round to the nearest integer, ties to the even integer (the rounding used
by fixed-point float formatting). -/
def roundHalfEven (v : ℚ) : Int :=
  if v - ⌊v⌋ < 1/2 then ⌊v⌋
  else if (1:ℚ)/2 < v - ⌊v⌋ then ⌊v⌋ + 1
  else if ⌊v⌋ % 2 = 0 then ⌊v⌋ else ⌊v⌋ + 1

/-- Python `f"{v:.kf}"`: fixed-point rendering with `k` decimal places. -/
def formatFixed (k : Nat) (v : ℚ) : String :=
  let n := roundHalfEven (v * (10:ℚ) ^ k)
  (if n < 0 then "-" else "") ++ String.mk (natChars (n.natAbs / 10 ^ k))
    ++ "." ++ String.mk (natCharsPad k (n.natAbs % 10 ^ k))

/-- Line 50 of `analysis_functions.py`:
`f"{int(extreme_value)}" if not unit_suffix else f"{extreme_value:.1f}{unit_suffix}"`. -/
def formatValue (v : ℚ) (suffix : String) : String :=
  if suffix = "" then intStr (truncInt v) else formatFixed 1 v ++ suffix

/-! ## Data model (§3 of the spec; columns of the cleaned CSV) -/

/-- One row of the cleaned traffic table. `Freight_In` abbreviates the CSV
column `Freight_In_(tonnes)`, and similarly for the other tonnage columns. -/
structure TrafficRecord where
  Year : Int
  Month : Int
  AustralianPort : String
  ForeignPort : String
  Country : String
  Passengers_In : ℚ
  Passengers_Out : ℚ
  Passengers_Total : ℚ
  Freight_In : ℚ
  Freight_Out : ℚ
  Freight_Total : ℚ
  Mail_In : ℚ
  Mail_Out : ℚ
  Mail_Total : ℚ
deriving DecidableEq

/-- `create_datetime_index`, line 28: `df['Route'] = df['AustralianPort'] + '-' + df['ForeignPort']`. -/
def route (r : TrafficRecord) : String := r.AustralianPort ++ "-" ++ r.ForeignPort

/-! ## PeriodFilter (`utilities.filter_data_by_period`, lines 36-42) -/

/-- The row predicate of `filter_data_by_period`. -/
def inPeriod (sY sM eY eM : Int) (r : TrafficRecord) : Bool :=
  decide ((r.Year = sY ∧ r.Month ≥ sM) ∨ (r.Year > sY ∧ r.Year < eY) ∨
    (r.Year = eY ∧ r.Month ≤ eM))

/-- `utilities.filter_data_by_period`. -/
def filter_data_by_period (data : List TrafficRecord) (sY sM eY eM : Int) :
    List TrafficRecord :=
  data.filter (inPeriod sY sM eY eM)

/-- The inline copy of the period filter in `analyze_traffic_routes`
(`analysis_functions.py`, lines 29-33). -/
def routesInlineFilter (df : List TrafficRecord) (sY sM eY eM : Int) :
    List TrafficRecord :=
  df.filter (fun r => decide ((r.Year = sY ∧ r.Month ≥ sM) ∨
    (r.Year > sY ∧ r.Year < eY) ∨ (r.Year = eY ∧ r.Month ≤ eM)))

/-- Claim C1: a record with year `Y`, month `M` passes the period filter
(both `filter_data_by_period` and the inline copy in `analyze_traffic_routes`)
iff `(Y = startYear ∧ M ≥ startMonth) ∨ (startYear < Y < endYear) ∨
(Y = endYear ∧ M ≤ endMonth)`; and when `startYear = endYear` with
`startMonth ≤ endMonth`, every record of that year is admitted, whatever its
month. -/
theorem C1_period_filter (data : List TrafficRecord) (sY sM eY eM : Int)
    (r : TrafficRecord) :
    (r ∈ filter_data_by_period data sY sM eY eM ↔
      r ∈ data ∧ ((r.Year = sY ∧ r.Month ≥ sM) ∨ (sY < r.Year ∧ r.Year < eY) ∨
        (r.Year = eY ∧ r.Month ≤ eM))) ∧
    routesInlineFilter data sY sM eY eM = filter_data_by_period data sY sM eY eM ∧
    (sY = eY → sM ≤ eM → r ∈ data → r.Year = sY →
      r ∈ filter_data_by_period data sY sM eY eM) := by
  refine ⟨?_, rfl, ?_⟩
  · simp only [filter_data_by_period, List.mem_filter, inPeriod, decide_eq_true_eq,
      ge_iff_le, gt_iff_lt]
  · intro hse hm hr hy
    simp only [filter_data_by_period, List.mem_filter, inPeriod, decide_eq_true_eq]
    refine ⟨hr, ?_⟩
    rcases le_or_lt sM r.Month with h | h
    · exact Or.inl ⟨hy, h⟩
    · exact Or.inr (Or.inr ⟨hse ▸ hy, by omega⟩)

/-- A concrete witness for C1: with `startYear = endYear = 1985`,
`startMonth = 1 ≤ 12 = endMonth`, a December record is admitted. -/
def witnessRecordC1 : TrafficRecord :=
  ⟨1985, 12, "Sydney", "London", "UK", 100, 80, 180, 0, 0, 0, 0, 0, 0⟩

theorem C1_period_filter_witness :
    witnessRecordC1 ∈ filter_data_by_period [witnessRecordC1] 1985 1 1985 12 :=
  (C1_period_filter [witnessRecordC1] 1985 1 1985 12 witnessRecordC1).2.2
    rfl (by norm_num) (List.mem_singleton.mpr rfl) rfl

/-! ## Grouped aggregation (pandas `groupby(key)[cols].sum()`)

Pandas sorts the group keys ascending; each key is paired with the sum of the
column over its records. -/

/-- Ascending deduplicated keys of a grouped table. -/
def keysSorted (l : List String) : List String := sortBy strLe l.dedup

/-- One column of `period_data.groupby('Route')[[...]].sum()`
(`analysis_functions.py`, line 42). -/
def groupedCol (rs : List TrafficRecord) (col : TrafficRecord → ℚ) :
    List (String × ℚ) :=
  (keysSorted (rs.map route)).map
    (fun k => (k, ((rs.filter (fun r => decide (route r = k))).map col).sum))

/-! ## ExtremaSelector (`analyze_traffic_routes`, lines 44-54) -/

/-- Line 46: `route_data[col].max() if traffic_level == 'Most' else
route_data[col].min()`. -/
def extremeValue (traffic_level : String) (gs : List (String × ℚ)) : Option ℚ :=
  if traffic_level = "Most" then listMax (gs.map Prod.snd)
  else listMin (gs.map Prod.snd)

/-- Line 47: `route_data[route_data[col] == extreme_value].index.tolist()`. -/
def tiedKeysAt (gs : List (String × ℚ)) (ev : ℚ) : List String :=
  (gs.filter (fun kv => decide (kv.2 = ev))).map Prod.fst

/-- Lines 45-54: the per-direction step.  The source guard is
`not route_data.empty and col in route_data.columns`; the three selected
columns are always present in the grouped frame, so the guard is equivalent to
the grouped table being nonempty, i.e. to `extremeValue` returning a value. -/
def buildDirection (traffic_level suffix : String) (gs : List (String × ℚ)) :
    String × String :=
  match extremeValue traffic_level gs with
  | none => ("No data", "No data")
  | some ev => (String.intercalate ", " (tiedKeysAt gs ev), formatValue ev suffix)

/-! ## Period bucketing (`analyze_traffic_routes`, lines 37-39 / 58-60, and
`utilities.filter_and_aggregate_by_period`, lines 76-96) -/

/-- Ascending (Year, Month) lexicographic comparison. -/
def pairLe (a b : Int × Int) : Bool :=
  decide (a.1 < b.1 ∨ (a.1 = b.1 ∧ a.2 ≤ b.2))

/-- `df[['Year','Month']].drop_duplicates().sort_values(['Year','Month'])`. -/
def monthPeriods (rs : List TrafficRecord) : List (Int × Int) :=
  sortBy pairLe ((rs.map (fun r => (r.Year, r.Month))).dedup)

/-- `sorted(df['Year'].unique())`. -/
def yearPeriods (rs : List TrafficRecord) : List Int :=
  sortBy (fun a b => decide (a ≤ b)) ((rs.map (fun r => r.Year)).dedup)

/-- `df[(df['Year'] == year) & (df['Month'] == month)]`. -/
def bucket (rs : List TrafficRecord) (y m : Int) : List TrafficRecord :=
  rs.filter (fun r => decide (r.Year = y ∧ r.Month = m))

/-- `df[df['Year'] == year]`. -/
def bucketY (rs : List TrafficRecord) (y : Int) : List TrafficRecord :=
  rs.filter (fun r => decide (r.Year = y))

/-! ## RouteExtremes (`analyze_traffic_routes`, lines 9-79) -/

/-- One output row of `analyze_traffic_routes`. -/
structure RouteRow where
  year : Int
  month : Option Int
  inRoute : String
  inValue : String
  outRoute : String
  outValue : String
  totalRoute : String
  totalValue : String
deriving DecidableEq

/-- Lines 38-56: the result row of one monthly bucket. -/
def buildMonthRow (traffic_level : String) (cin cout ctot : TrafficRecord → ℚ)
    (suffix : String) (rs : List TrafficRecord) (p : Int × Int) : RouteRow :=
  let pd := bucket rs p.1 p.2
  let dIn := buildDirection traffic_level suffix (groupedCol pd cin)
  let dOut := buildDirection traffic_level suffix (groupedCol pd cout)
  let dTot := buildDirection traffic_level suffix (groupedCol pd ctot)
  ⟨p.1, some p.2, dIn.1, dIn.2, dOut.1, dOut.2, dTot.1, dTot.2⟩

/-- Lines 59-77: the result row of one yearly bucket. -/
def buildYearRow (traffic_level : String) (cin cout ctot : TrafficRecord → ℚ)
    (suffix : String) (rs : List TrafficRecord) (y : Int) : RouteRow :=
  let pd := bucketY rs y
  let dIn := buildDirection traffic_level suffix (groupedCol pd cin)
  let dOut := buildDirection traffic_level suffix (groupedCol pd cout)
  let dTot := buildDirection traffic_level suffix (groupedCol pd ctot)
  ⟨y, none, dIn.1, dIn.2, dOut.1, dOut.2, dTot.1, dTot.2⟩

/-- Lines 14-18: `col_mapping`, with the unit suffix per traffic type. -/
def colMapping (traffic_type : String) :
    Option ((TrafficRecord → ℚ) × (TrafficRecord → ℚ) × (TrafficRecord → ℚ) × String) :=
  if traffic_type = "Passengers" then
    some (TrafficRecord.Passengers_In, TrafficRecord.Passengers_Out,
      TrafficRecord.Passengers_Total, "")
  else if traffic_type = "Freight" then
    some (TrafficRecord.Freight_In, TrafficRecord.Freight_Out,
      TrafficRecord.Freight_Total, "t")
  else if traffic_type = "Mail" then
    some (TrafficRecord.Mail_In, TrafficRecord.Mail_Out,
      TrafficRecord.Mail_Total, "t")
  else none

/-- `analyze_traffic_routes` (lines 9-79).  The three `raise ValueError`
statements become `Except.error` with the source messages, checked in source
order (traffic_type, then traffic_level, then aggregate_by). -/
def analyze_traffic_routes (df : List TrafficRecord) (sY sM eY eM : Int)
    (traffic_level traffic_type aggregate_by : String) :
    Except String (List RouteRow) :=
  match colMapping traffic_type with
  | none => Except.error "traffic_type must be 'Passengers', 'Freight', or 'Mail'"
  | some (cin, cout, ctot, suffix) =>
    if traffic_level ≠ "Most" ∧ traffic_level ≠ "Least" then
      Except.error "traffic_level must be 'Most' or 'Least'"
    else if aggregate_by ≠ "Month" ∧ aggregate_by ≠ "Year" then
      Except.error "aggregate_by must be 'Month' or 'Year'"
    else
      let filtered := routesInlineFilter df sY sM eY eM
      if aggregate_by = "Month" then
        Except.ok ((monthPeriods filtered).map
          (buildMonthRow traffic_level cin cout ctot suffix filtered))
      else
        Except.ok ((yearPeriods filtered).map
          (buildYearRow traffic_level cin cout ctot suffix filtered))

/-! ## MetricComposer ratios (`analyze_port_flow_efficiency`, lines 112-118) -/

/-- Lines 112-115: `port_data[in] / (port_data[out] + epsilon)` with
`epsilon = 1 if cargo_type == 'passengers' else 0.001`. -/
def balance_ratio (cargo_type : String) (inSum outSum : ℚ) : ℚ :=
  inSum / (outSum + (if cargo_type = "passengers" then 1 else 1/1000))

/-- Lines 116-118: `1 - abs(1 - balance_ratio)`. -/
def cargo_efficiency (cargo_type : String) (inSum outSum : ℚ) : ℚ :=
  1 - |1 - balance_ratio cargo_type inSum outSum|

/-- Claim C2 is false on the code: with the passenger epsilon of 1, an entity
with 50 passengers in and 50 out has balance ratio 50/51, not 1, and
efficiency 50/51, not 1. -/
theorem C2_counterexample :
    ¬ (balance_ratio "passengers" 50 50 = 1 ∧
       cargo_efficiency "passengers" 50 50 = 1) := by
  intro h
  have h1 := h.1
  norm_num [balance_ratio] at h1

/-- Claim C2 amended: with In = 50, Out = 50 for the passenger cargo type the
balance ratio is exactly 50/51 and the efficiency is exactly 50/51, the
balance ratio being In / (Out + ε) with ε = 1 for the passenger metric and
ε = 0.001 for the tonnage metrics, and efficiency 1 − |1 − ratio|. -/
theorem C2_amended (inV outV : ℚ) :
    balance_ratio "passengers" 50 50 = 50 / 51 ∧
    cargo_efficiency "passengers" 50 50 = 50 / 51 ∧
    balance_ratio "passengers" inV outV = inV / (outV + 1) ∧
    balance_ratio "freight" inV outV = inV / (outV + 1/1000) ∧
    balance_ratio "mail" inV outV = inV / (outV + 1/1000) := by
  have hbr : balance_ratio "passengers" 50 50 = 50 / 51 := by
    norm_num [balance_ratio]
  refine ⟨hbr, ?_, by norm_num +decide [balance_ratio],
    by norm_num +decide [balance_ratio], by norm_num +decide [balance_ratio]⟩
  rw [cargo_efficiency, hbr, show (1:ℚ) - 50/51 = 1/51 by norm_num,
    abs_of_pos (by norm_num : (0:ℚ) < 1/51)]
  norm_num

/-! ## Lemmas about the sorting and extremum helpers -/

theorem insertLe_perm {α : Type} (le : α → α → Bool) (x : α) (l : List α) :
    (insertLe le x l).Perm (x :: l) := by
  induction l with
  | nil => exact List.Perm.refl _
  | cons y ys ih =>
    by_cases h : le y x = true
    · simpa [insertLe, h] using (ih.cons y).trans (List.Perm.swap x y ys)
    · simp [insertLe, h]

theorem sortBy_perm {α : Type} (le : α → α → Bool) (l : List α) :
    (sortBy le l).Perm l := by
  induction l with
  | nil => exact List.Perm.refl _
  | cons x xs ih => exact (insertLe_perm le x (sortBy le xs)).trans (ih.cons x)

theorem mem_sortBy {α : Type} {le : α → α → Bool} {a : α} {l : List α} :
    a ∈ sortBy le l ↔ a ∈ l := (sortBy_perm le l).mem_iff

theorem length_sortBy {α : Type} (le : α → α → Bool) (l : List α) :
    (sortBy le l).length = l.length := (sortBy_perm le l).length_eq

theorem insertLe_pairwise {α : Type} {le : α → α → Bool}
    (htot : ∀ a b, le a b = true ∨ le b a = true)
    (htrans : ∀ a b c, le a b = true → le b c = true → le a c = true)
    (x : α) {l : List α} (hl : l.Pairwise (fun a b => le a b = true)) :
    (insertLe le x l).Pairwise (fun a b => le a b = true) := by
  induction l with
  | nil => simp [insertLe]
  | cons y ys ih =>
    rcases List.pairwise_cons.mp hl with ⟨hy, hys⟩
    by_cases h : le y x = true
    · rw [show insertLe le x (y :: ys) = y :: insertLe le x ys by simp [insertLe, h]]
      refine List.pairwise_cons.mpr ⟨?_, ih hys⟩
      intro z hz
      rcases List.mem_cons.mp ((insertLe_perm le x ys).mem_iff.mp hz) with rfl | hz'
      · exact h
      · exact hy z hz'
    · rw [show insertLe le x (y :: ys) = x :: y :: ys by simp [insertLe, h]]
      have hxy : le x y = true := (htot x y).resolve_right h
      refine List.pairwise_cons.mpr ⟨?_, hl⟩
      intro z hz
      rcases List.mem_cons.mp hz with rfl | hz'
      · exact hxy
      · exact htrans x y z hxy (hy z hz')

theorem sortBy_pairwise {α : Type} {le : α → α → Bool}
    (htot : ∀ a b, le a b = true ∨ le b a = true)
    (htrans : ∀ a b c, le a b = true → le b c = true → le a c = true)
    (l : List α) : (sortBy le l).Pairwise (fun a b => le a b = true) := by
  induction l with
  | nil => simp [sortBy]
  | cons x xs ih => exact insertLe_pairwise htot htrans x ih

theorem sortBy_nodup {α : Type} {le : α → α → Bool} {l : List α}
    (h : l.Nodup) : (sortBy le l).Nodup := (sortBy_perm le l).nodup_iff.mpr h

theorem strLe_total (a b : String) : strLe a b = true ∨ strLe b a = true := by
  simp only [strLe, decide_eq_true_eq]
  exact le_total a.data b.data

theorem strLe_trans (a b c : String) (h1 : strLe a b = true)
    (h2 : strLe b c = true) : strLe a c = true := by
  simp only [strLe, decide_eq_true_eq] at h1 h2 ⊢
  exact le_trans h1 h2

theorem pairLe_total (a b : Int × Int) : pairLe a b = true ∨ pairLe b a = true := by
  simp only [pairLe, decide_eq_true_eq]
  omega

theorem pairLe_trans (a b c : Int × Int) (h1 : pairLe a b = true)
    (h2 : pairLe b c = true) : pairLe a c = true := by
  simp only [pairLe, decide_eq_true_eq] at h1 h2 ⊢
  omega

theorem listMax_eq_none {α : Type} [LinearOrder α] {l : List α} : listMax l = none ↔ l = [] := by
  cases l <;> simp [listMax]

theorem listMax_spec {α : Type} [LinearOrder α] {l : List α} {v : α} (h : listMax l = some v) :
    v ∈ l ∧ ∀ x ∈ l, x ≤ v := by
  induction l generalizing v with
  | nil => simp [listMax] at h
  | cons x xs ih =>
    rw [listMax] at h
    rcases hxs : listMax xs with _ | m
    · rw [hxs] at h
      have hnil : xs = [] := listMax_eq_none.mp hxs
      simp only [Option.some.injEq] at h
      subst hnil
      subst h
      simp
    · rw [hxs] at h
      simp only [Option.some.injEq] at h
      rcases ih hxs with ⟨hm, hall⟩
      by_cases hxm : x ≤ m
      · rw [if_pos hxm] at h
        subst h
        exact ⟨List.mem_cons_of_mem x hm, by
          intro z hz
          rcases List.mem_cons.mp hz with rfl | hz'
          · exact hxm
          · exact hall z hz'⟩
      · rw [if_neg hxm] at h
        subst h
        exact ⟨List.mem_cons_self x xs, by
          intro z hz
          rcases List.mem_cons.mp hz with rfl | hz'
          · exact le_refl z
          · exact le_trans (hall z hz') (le_of_not_le hxm)⟩

theorem listMin_eq_none {α : Type} [LinearOrder α] {l : List α} : listMin l = none ↔ l = [] := by
  cases l <;> simp [listMin]

theorem listMin_spec {α : Type} [LinearOrder α] {l : List α} {v : α} (h : listMin l = some v) :
    v ∈ l ∧ ∀ x ∈ l, v ≤ x := by
  induction l generalizing v with
  | nil => simp [listMin] at h
  | cons x xs ih =>
    rw [listMin] at h
    rcases hxs : listMin xs with _ | m
    · rw [hxs] at h
      have hnil : xs = [] := listMin_eq_none.mp hxs
      simp only [Option.some.injEq] at h
      subst hnil
      subst h
      simp
    · rw [hxs] at h
      simp only [Option.some.injEq] at h
      rcases ih hxs with ⟨hm, hall⟩
      by_cases hmx : m ≤ x
      · rw [if_pos hmx] at h
        subst h
        exact ⟨List.mem_cons_of_mem x hm, by
          intro z hz
          rcases List.mem_cons.mp hz with rfl | hz'
          · exact hmx
          · exact hall z hz'⟩
      · rw [if_neg hmx] at h
        subst h
        exact ⟨List.mem_cons_self x xs, by
          intro z hz
          rcases List.mem_cons.mp hz with rfl | hz'
          · exact le_refl z
          · exact le_trans (le_of_not_le hmx) (hall z hz')⟩

/-! ## Claim C4: extremum and tie selection in `analyze_traffic_routes` -/

theorem groupedCol_map_fst (rs : List TrafficRecord) (col : TrafficRecord → ℚ) :
    (groupedCol rs col).map Prod.fst = keysSorted (rs.map route) := by
  rw [groupedCol, List.map_map]
  show (keysSorted (rs.map route)).map (fun k => k) = keysSorted (rs.map route)
  simp

theorem keysSorted_pairwise (l : List String) :
    (keysSorted l).Pairwise (fun a b => strLe a b = true ∧ a ≠ b) := by
  have hp := sortBy_pairwise strLe_total strLe_trans l.dedup
  have hn : (sortBy strLe l.dedup).Nodup := sortBy_nodup (List.nodup_dedup l)
  exact hp.and hn

theorem mem_tiedKeysAt {gs : List (String × ℚ)} {ev : ℚ} {k : String} :
    k ∈ tiedKeysAt gs ev ↔ (k, ev) ∈ gs := by
  simp only [tiedKeysAt, List.mem_map, List.mem_filter, decide_eq_true_eq]
  constructor
  · rintro ⟨⟨k', v⟩, ⟨hmem, hv⟩, rfl⟩
    subst hv
    exact hmem
  · intro h
    exact ⟨(k, ev), ⟨h, rfl⟩, rfl⟩

theorem tiedKeysAt_pairwise (rs : List TrafficRecord) (col : TrafficRecord → ℚ)
    (ev : ℚ) :
    (tiedKeysAt (groupedCol rs col) ev).Pairwise
      (fun a b => strLe a b = true ∧ a ≠ b) := by
  have hsub : (tiedKeysAt (groupedCol rs col) ev).Sublist
      ((groupedCol rs col).map Prod.fst) :=
    List.Sublist.map Prod.fst (List.filter_sublist _)
  rw [groupedCol_map_fst] at hsub
  exact List.Pairwise.sublist hsub (keysSorted_pairwise _)

/-- Claim C4: on a nonempty grouped table (one whose extremum exists), the
extremum step of `analyze_traffic_routes` returns the maximum of the column
for level `Most` and the minimum for level `Least`; the reported key list
contains exactly the grouping keys whose value equals that extreme (all ties),
in strictly ascending lexicographic key order, and the emitted field is their
comma-joined string. -/
theorem C4_extremum_ties (rs : List TrafficRecord) (col : TrafficRecord → ℚ)
    (traffic_level suffix : String) (ev : ℚ)
    (h : extremeValue traffic_level (groupedCol rs col) = some ev) :
    (traffic_level = "Most" →
      ev ∈ (groupedCol rs col).map Prod.snd ∧
        ∀ x ∈ (groupedCol rs col).map Prod.snd, x ≤ ev) ∧
    (traffic_level = "Least" →
      ev ∈ (groupedCol rs col).map Prod.snd ∧
        ∀ x ∈ (groupedCol rs col).map Prod.snd, ev ≤ x) ∧
    (∀ k, k ∈ tiedKeysAt (groupedCol rs col) ev ↔ (k, ev) ∈ groupedCol rs col) ∧
    (tiedKeysAt (groupedCol rs col) ev).Pairwise
      (fun a b => strLe a b = true ∧ a ≠ b) ∧
    buildDirection traffic_level suffix (groupedCol rs col) =
      (String.intercalate ", " (tiedKeysAt (groupedCol rs col) ev),
        formatValue ev suffix) := by
  refine ⟨?_, ?_, fun k => mem_tiedKeysAt, tiedKeysAt_pairwise rs col ev, ?_⟩
  · intro hl
    rw [extremeValue, if_pos hl] at h
    exact listMax_spec h
  · intro hl
    subst hl
    rw [extremeValue, if_neg (by decide)] at h
    exact listMin_spec h
  · simp [buildDirection, h]

/-- Two routes tied at total 5, checked through the real pipeline step. -/
def rsC4 : List TrafficRecord :=
  [⟨1985, 1, "Sydney", "London", "UK", 0, 0, 5, 0, 0, 0, 0, 0, 0⟩,
   ⟨1985, 1, "Melbourne", "Tokyo", "Japan", 0, 0, 5, 0, 0, 0, 0, 0, 0⟩]

theorem C4_extremum_ties_witness :
    buildDirection "Most" "" (groupedCol rsC4 TrafficRecord.Passengers_Total) =
      ("Melbourne-Tokyo, Sydney-London", "5") := by
  have h : extremeValue "Most" (groupedCol rsC4 TrafficRecord.Passengers_Total) =
      some 5 := by
    norm_num +decide [extremeValue, groupedCol, keysSorted, rsC4, route, sortBy,
      insertLe, strLe, List.dedup, List.filter_cons, List.filter_nil, listMax]
  rw [(C4_extremum_ties rsC4 TrafficRecord.Passengers_Total "Most" "" 5 h).2.2.2.2]
  norm_num +decide [tiedKeysAt, groupedCol, keysSorted, rsC4, route, sortBy,
    insertLe, strLe, List.dedup, List.filter_cons, List.filter_nil, formatValue,
    intStr, truncInt, natChars, natCharsAux, digitChar, Int.natAbs_ofNat]

/-! ## Claim C5: formatted value strings -/

theorem digitChar_isDigit {d : Nat} (h : d < 10) : (digitChar d).isDigit = true := by
  interval_cases d <;> decide

theorem natCharsAux_digits (fuel : Nat) :
    ∀ n : Nat, ∀ c ∈ natCharsAux fuel n, c.isDigit = true := by
  induction fuel with
  | zero => simp [natCharsAux]
  | succ fuel ih =>
    intro n c hc
    rw [natCharsAux] at hc
    by_cases h : n < 10
    · rw [if_pos h] at hc
      simp only [List.mem_singleton] at hc
      subst hc
      exact digitChar_isDigit h
    · rw [if_neg h] at hc
      rcases List.mem_append.mp hc with h1 | h1
      · exact ih (n / 10) c h1
      · simp only [List.mem_singleton] at h1
        subst h1
        exact digitChar_isDigit (Nat.mod_lt _ (by omega))

theorem natChars_digits (n : Nat) : ∀ c ∈ natChars n, c.isDigit = true :=
  natCharsAux_digits (n + 1) n

theorem roundHalfEven_dist (v : ℚ) : |v - (roundHalfEven v : ℚ)| ≤ 1/2 := by
  have h1 : (⌊v⌋ : ℚ) ≤ v := Int.floor_le v
  have h2 : v < ⌊v⌋ + 1 := Int.lt_floor_add_one v
  rw [roundHalfEven]
  by_cases c1 : v - ⌊v⌋ < 1/2
  · rw [if_pos c1, abs_of_nonneg (by linarith)]
    linarith
  · rw [if_neg c1]
    by_cases c2 : (1:ℚ)/2 < v - ⌊v⌋
    · rw [if_pos c2]
      push_cast
      rw [abs_of_nonpos (by linarith)]
      linarith
    · rw [if_neg c2]
      by_cases c3 : ⌊v⌋ % 2 = 0
      · rw [if_pos c3, abs_of_nonneg (by linarith)]
        linarith
      · rw [if_neg c3]
        push_cast
        rw [abs_of_nonpos (by linarith)]
        linarith

theorem truncInt_spec (v : ℚ) :
    |v - (truncInt v : ℚ)| < 1 ∧ 0 ≤ (v - (truncInt v : ℚ)) * v := by
  rw [truncInt]
  by_cases h : 0 ≤ v
  · rw [if_pos h]
    have h1 : (⌊v⌋ : ℚ) ≤ v := Int.floor_le v
    have h2 : v < ⌊v⌋ + 1 := Int.lt_floor_add_one v
    constructor
    · rw [abs_of_nonneg (by linarith)]
      linarith
    · exact mul_nonneg (by linarith) h
  · rw [if_neg h]
    push_neg at h
    have h1 : (⌊-v⌋ : ℚ) ≤ -v := Int.floor_le _
    have h2 : -v < ⌊-v⌋ + 1 := Int.lt_floor_add_one _
    push_cast
    constructor
    · rw [abs_of_nonpos (by linarith)]
      linarith
    · nlinarith

theorem natCharsPad_one (m : Nat) : natCharsPad 1 m = [digitChar (m % 10)] := by
  simp [natCharsPad]

/-- Claim C5: with no unit suffix the formatted extreme value is the decimal
rendering of the integer obtained by truncating the fractional part (the
dropped part has magnitude below 1 and the sign of the value); with a unit
suffix the value is rendered to exactly one decimal place — an optional minus
sign and digits, one dot, one digit — immediately followed by the suffix with
no separating space, the rendered tenths being within 1/2 of `10·v`. -/
theorem C5_formatted_value (v : ℚ) (suffix : String) (hs : suffix ≠ "") :
    (formatValue v "" = intStr (truncInt v) ∧
      |v - (truncInt v : ℚ)| < 1 ∧ 0 ≤ (v - (truncInt v : ℚ)) * v) ∧
    (∃ n : Int, |v * 10 - (n : ℚ)| ≤ 1/2 ∧
      ∃ s : String, ∃ d : Nat, d < 10 ∧
        formatValue v suffix = s ++ "." ++ String.mk [digitChar d] ++ suffix ∧
        d = n.natAbs % 10 ∧
        ∀ c ∈ s.data, c.isDigit = true ∨ c = '-') := by
  constructor
  · exact ⟨by rw [formatValue, if_pos rfl], (truncInt_spec v).1, (truncInt_spec v).2⟩
  · refine ⟨roundHalfEven (v * 10), ?_, ?_⟩
    · exact roundHalfEven_dist (v * 10)
    · refine ⟨(if roundHalfEven (v * 10) < 0 then "-" else "") ++
        String.mk (natChars ((roundHalfEven (v * 10)).natAbs / 10)),
        (roundHalfEven (v * 10)).natAbs % 10, Nat.mod_lt _ (by omega), ?_, rfl, ?_⟩
      · rw [formatValue, if_neg hs]
        simp only [formatFixed, pow_one, natCharsPad_one,
          Nat.mod_eq_of_lt (Nat.mod_lt _ (by omega : (0:Nat) < 10))]
      · intro c hc
        rw [String.data_append] at hc
        rcases List.mem_append.mp hc with h1 | h1
        · by_cases hneg : roundHalfEven (v * 10) < 0
          · rw [if_pos hneg] at h1
            right
            simpa using h1
          · rw [if_neg hneg] at h1
            simp at h1
        · left
          exact natChars_digits _ c h1

/-- Witness for C5 at `v = 123.4`, suffix `"t"`. -/
theorem C5_formatted_value_witness :
    (formatValue (1234/10 : ℚ) "" = intStr (truncInt (1234/10 : ℚ)) ∧
      |(1234/10 : ℚ) - (truncInt (1234/10 : ℚ) : ℚ)| < 1) ∧
    ∃ n : Int, |(1234/10 : ℚ) * 10 - (n : ℚ)| ≤ 1/2 :=
  ⟨⟨((C5_formatted_value (1234/10) "t" (by decide)).1).1,
    ((C5_formatted_value (1234/10) "t" (by decide)).1).2.1⟩,
   ((C5_formatted_value (1234/10) "t" (by decide)).2).elim
     (fun n hn => ⟨n, hn.1⟩)⟩

/-! ## ResultFormatter (`utilities.format_results_summary`, lines 106-123) -/

/-- One row of a grouped frame handed to `format_results_summary`: the entity
name column and the metric column. -/
structure SummaryEntity where
  name : String
  metric : ℚ
deriving DecidableEq

/-- `utilities.format_results_summary`.  `useMetric` states whether
`metric_col` was supplied and present in the frame (the flow and hub analyses
always pass `metric_col=None`, i.e. `false`). -/
def format_results_summary (entities : List SummaryEntity) (useMetric : Bool)
    (year : Int) (month : Option Int) : (Int × Option Int) × String × String :=
  if entities.isEmpty then ((year, month), "No data", "No data")
  else ((year, month),
    String.intercalate ", " (entities.map SummaryEntity.name),
    if useMetric then formatFixed 3 (mean (entities.map SummaryEntity.metric))
    else "No data")

/-! ## Claim C6: empty buckets give "No data" and leave other buckets alone -/

/-- Claim C6: a bucket whose grouped table is empty fills every metric field
of its row with the literal string "No data" (no exception: the embedding is
total); `format_results_summary` maps an empty frame to the sentinel pair;
and the row built for a bucket depends only on that bucket's records — two
record sets that agree outside the bucket `(y0, m0)` produce identical
buckets and identical rows at every other period `p`. -/
theorem C6_empty_bucket (traffic_level suffix : String)
    (cin cout ctot : TrafficRecord → ℚ) (p : Int × Int)
    (useMetric : Bool) (year : Int) (month : Option Int)
    (rs1 rs2 : List TrafficRecord) (y0 m0 : Int)
    (hagree : rs1.filter (fun r => decide (¬(r.Year = y0 ∧ r.Month = m0))) =
      rs2.filter (fun r => decide (¬(r.Year = y0 ∧ r.Month = m0))))
    (hp : ¬(p.1 = y0 ∧ p.2 = m0)) :
    buildMonthRow traffic_level cin cout ctot suffix [] p =
      ⟨p.1, some p.2, "No data", "No data", "No data", "No data",
        "No data", "No data"⟩ ∧
    format_results_summary [] useMetric year month =
      ((year, month), "No data", "No data") ∧
    bucket rs1 p.1 p.2 = bucket rs2 p.1 p.2 ∧
    buildMonthRow traffic_level cin cout ctot suffix rs1 p =
      buildMonthRow traffic_level cin cout ctot suffix rs2 p := by
  have hbucket : bucket rs1 p.1 p.2 = bucket rs2 p.1 p.2 := by
    have key : ∀ rs : List TrafficRecord, bucket rs p.1 p.2 =
        (rs.filter (fun r => decide (¬(r.Year = y0 ∧ r.Month = m0)))).filter
          (fun r => decide (r.Year = p.1 ∧ r.Month = p.2)) := by
      intro rs
      rw [List.filter_filter, bucket]
      apply List.filter_congr
      intro a _
      by_cases h : a.Year = p.1 ∧ a.Month = p.2
      · have hq : ¬(a.Year = y0 ∧ a.Month = m0) := by
          intro hc
          exact hp ⟨by omega, by omega⟩
        rw [decide_eq_true h, decide_eq_true hq]
        rfl
      · rw [decide_eq_false h]
        rfl
    rw [key rs1, key rs2, hagree]
  refine ⟨?_, ?_, hbucket, ?_⟩
  · simp [buildMonthRow, bucket, groupedCol, keysSorted, sortBy, buildDirection,
      extremeValue, listMax, listMin]
  · simp [format_results_summary]
  · simp only [buildMonthRow, hbucket]

def recC6a : TrafficRecord :=
  ⟨1985, 2, "Sydney", "London", "UK", 10, 10, 20, 0, 0, 0, 0, 0, 0⟩

def recC6b : TrafficRecord :=
  ⟨1985, 1, "Perth", "Auckland", "NZ", 7, 7, 14, 0, 0, 0, 0, 0, 0⟩

/-- Witness for C6: adding a record in bucket (1985, 1) does not change the
row built for bucket (1985, 2). -/
theorem C6_empty_bucket_witness :
    buildMonthRow "Most" TrafficRecord.Passengers_In TrafficRecord.Passengers_Out
        TrafficRecord.Passengers_Total "" [recC6a] (1985, 2) =
      buildMonthRow "Most" TrafficRecord.Passengers_In TrafficRecord.Passengers_Out
        TrafficRecord.Passengers_Total "" [recC6a, recC6b] (1985, 2) :=
  (C6_empty_bucket "Most" "" TrafficRecord.Passengers_In TrafficRecord.Passengers_Out
    TrafficRecord.Passengers_Total (1985, 2) false 1985 none
    [recC6a] [recC6a, recC6b] 1985 1 rfl (by decide)).2.2.2

/-! ## Claim C7: monthly bucketing is driven by observed (Year, Month) pairs -/

/-- Claim C7: under monthly granularity the number of output rows of
`analyze_traffic_routes` equals the number of distinct (Year, Month) pairs in
the filtered record set, rows are strictly ascending by (Year, Month) (every
row carries a month), and a (year, month) with no filtered record yields no
row at all. -/
theorem C7_monthly_rows (df : List TrafficRecord) (sY sM eY eM : Int)
    (traffic_level traffic_type : String) (rows : List RouteRow)
    (h : analyze_traffic_routes df sY sM eY eM traffic_level traffic_type
      "Month" = Except.ok rows) :
    rows.length =
      ((routesInlineFilter df sY sM eY eM).map
        (fun r => (r.Year, r.Month))).toFinset.card ∧
    rows.Pairwise (fun a b => a.year < b.year ∨
      (a.year = b.year ∧ a.month.getD 0 < b.month.getD 0)) ∧
    (∀ row ∈ rows, row.month.isSome = true) ∧
    (∀ y m : Int,
      (∀ r ∈ routesInlineFilter df sY sM eY eM, ¬(r.Year = y ∧ r.Month = m)) →
      ∀ row ∈ rows, ¬(row.year = y ∧ row.month = some m)) := by
  rcases hmap : colMapping traffic_type with _ | quad
  · simp only [analyze_traffic_routes, hmap] at h
    cases h
  · rcases quad with ⟨cin, cout, ctot, suffix⟩
    simp only [analyze_traffic_routes, hmap] at h
    by_cases hlvl : traffic_level ≠ "Most" ∧ traffic_level ≠ "Least"
    · rw [if_pos hlvl] at h
      cases h
    · rw [if_neg hlvl, if_neg (by simp)] at h
      rw [if_pos trivial] at h
      injection h with h2
      subst h2
      set filtered := routesInlineFilter df sY sM eY eM with hfiltered
      refine ⟨?_, ?_, ?_, ?_⟩
      · rw [List.length_map, monthPeriods, length_sortBy, List.card_toFinset]
      · rw [List.pairwise_map]
        have hpw := (sortBy_pairwise pairLe_total pairLe_trans
          ((filtered.map (fun r => (r.Year, r.Month))).dedup)).and
          (sortBy_nodup (List.nodup_dedup _))
        rw [monthPeriods]
        refine hpw.imp ?_
        rintro ⟨a1, a2⟩ ⟨b1, b2⟩ ⟨hle, hne⟩
        simp only [pairLe, decide_eq_true_eq] at hle
        simp only [buildMonthRow]
        have : ¬(a1 = b1 ∧ a2 = b2) := by
          intro hc
          exact hne (by rw [hc.1, hc.2])
        rcases hle with h1 | h1
        · left
          exact h1
        · right
          refine ⟨h1.1, ?_⟩
          simp only [Option.getD_some]
          omega
      · intro row hrow
        rcases List.mem_map.mp hrow with ⟨p, hpmem, rfl⟩
        rfl
      · intro y m hno row hrow hcontra
        rcases List.mem_map.mp hrow with ⟨p, hpmem, rfl⟩
        have hp : p = (y, m) := by
          have h1 : p.1 = y := hcontra.1
          have h2 : some p.2 = some m := hcontra.2
          simp only [Option.some.injEq] at h2
          exact Prod.ext h1 h2
        subst hp
        have : (y, m) ∈ (filtered.map (fun r => (r.Year, r.Month))).dedup :=
          mem_sortBy.mp hpmem
        rcases List.mem_map.mp (List.mem_dedup.mp this) with ⟨r, hr, hpair⟩
        have h1 : r.Year = y := congrArg Prod.fst hpair
        have h2 : r.Month = m := congrArg Prod.snd hpair
        exact hno r hr ⟨h1, h2⟩

def recC7 : TrafficRecord :=
  ⟨1985, 1, "Sydney", "London", "UK", 100, 80, 180, 0, 0, 0, 0, 0, 0⟩

/-- Witness for C7 on a one-record frame: exactly one row, months present. -/
theorem C7_monthly_rows_witness :
    ∃ rows : List RouteRow,
      analyze_traffic_routes [recC7] 1985 1 1985 12 "Most" "Passengers" "Month" =
        Except.ok rows ∧
      rows.length =
        (([recC7] : List TrafficRecord).map (fun r => (r.Year, r.Month))).toFinset.card := by
  refine ⟨(monthPeriods (routesInlineFilter [recC7] 1985 1 1985 12)).map
    (buildMonthRow "Most" TrafficRecord.Passengers_In TrafficRecord.Passengers_Out
      TrafficRecord.Passengers_Total "" (routesInlineFilter [recC7] 1985 1 1985 12)), ?_, ?_⟩
  · rfl
  · have h := (C7_monthly_rows [recC7] 1985 1 1985 12 "Most" "Passengers" _ rfl).1
    rw [h]
    have : routesInlineFilter [recC7] 1985 1 1985 12 = [recC7] := rfl
    rw [this]

/-! ## TopNSelector (`utilities.get_top_entities`, lines 98-104)

`nlargest` / `nsmallest` with the default `keep='first'` are a stable sort by
the score (descending resp. ascending) followed by taking the first `top_n`
entities. -/

def get_top_entities {α : Type} (data : List α) (score : α → ℚ)
    (level : String) (top_n : Nat) : List α :=
  if data.isEmpty then data
  else if level = "Least" then
    (sortBy (fun a b => decide (score a ≤ score b)) data).take top_n
  else
    (sortBy (fun a b => decide (score b ≤ score a)) data).take top_n

/-! ## PeriodAggregator (`utilities.filter_and_aggregate_by_period`,
lines 71-96) -/

/-- Filter, then one bucket per distinct observed (Year, Month) pair under
monthly aggregation, or per distinct year otherwise, ascending.  The bucket
keeps its raw records; each caller applies its own `groupby` aggregation to
the bucket, which is what the caller-supplied `agg_dict` does in the source. -/
def filter_and_aggregate_by_period (df : List TrafficRecord) (sY sM eY eM : Int)
    (aggregate_by : String) : List (Int × Option Int × List TrafficRecord) :=
  let filtered := filter_data_by_period df sY sM eY eM
  if aggregate_by = "Month" then
    (monthPeriods filtered).map (fun p => (p.1, some p.2, bucket filtered p.1 p.2))
  else
    (yearPeriods filtered).map (fun y => (y, none, bucketY filtered y))

/-! ## PortFlowEfficiency (`analyze_port_flow_efficiency`, lines 81-141) -/

/-- `get_cargo_columns` (utilities, lines 44-50), restricted to the in/out
columns used by the flow analysis. -/
def cargoCols (cargo_type : String) :
    Option ((TrafficRecord → ℚ) × (TrafficRecord → ℚ)) :=
  if cargo_type = "passengers" then
    some (TrafficRecord.Passengers_In, TrafficRecord.Passengers_Out)
  else if cargo_type = "freight" then
    some (TrafficRecord.Freight_In, TrafficRecord.Freight_Out)
  else if cargo_type = "mail" then
    some (TrafficRecord.Mail_In, TrafficRecord.Mail_Out)
  else none

/-- Sorted distinct Australian ports of a bucket (`groupby('AustralianPort')`). -/
def portKeys (rs : List TrafficRecord) : List String :=
  keysSorted (rs.map TrafficRecord.AustralianPort)

/-- Sum of a column over one port's records. -/
def sumPort (rs : List TrafficRecord) (p : String) (col : TrafficRecord → ℚ) : ℚ :=
  ((rs.filter (fun r => decide (r.AustralianPort = p))).map col).sum

/-- One port's derived metrics for one cargo type. -/
structure PortScore where
  port : String
  ratio : ℚ
  eff : ℚ
  vol : ℚ
deriving DecidableEq

/-- Lines 111-137: per cargo type, derive ratio / efficiency / volume per
port, filter by volume, rank via `get_top_entities`, and emit the name list
and mean-efficiency fields (or the "No data" sentinels). -/
def flowCargoField (cargo_type efficiency_level : String) (minVol : ℚ)
    (top_n : Nat) (pd : List TrafficRecord)
    (cin cout : TrafficRecord → ℚ) : String × String :=
  let scores := (portKeys pd).map (fun p =>
    PortScore.mk p (balance_ratio cargo_type (sumPort pd p cin) (sumPort pd p cout))
      (cargo_efficiency cargo_type (sumPort pd p cin) (sumPort pd p cout))
      (sumPort pd p cin + sumPort pd p cout))
  let filtered_ports := scores.filter (fun s => decide (minVol ≤ s.vol))
  let top := get_top_entities filtered_ports PortScore.eff efficiency_level top_n
  if top.isEmpty then ("No data", "No data")
  else (String.intercalate ", " (top.map PortScore.port),
    formatFixed 3 (mean (top.map PortScore.eff)))

/-- An output row of the flow / hub analyses: the period key plus the emitted
string fields in order. -/
structure AnalysisRow where
  year : Int
  month : Option Int
  fields : List (String × String)
deriving DecidableEq

/-- `analyze_port_flow_efficiency` (lines 81-141).  `specific_ports = []`
plays the role of Python's falsy `None`.  The body contains no `raise`, so
the function is total: no enumerated argument is validated. -/
def analyze_port_flow_efficiency (df : List TrafficRecord) (sY sM eY eM : Int)
    (cargo_types : List String) (aggregate_by efficiency_level : String)
    (specific_ports : List String) (min_volume_threshold : ℚ)
    (top_n : Nat) : List AnalysisRow :=
  let filtered := filter_data_by_period df sY sM eY eM
  let filtered := if specific_ports ≠ [] then
      filtered.filter (fun r => decide (r.AustralianPort ∈ specific_ports))
    else filtered
  (filter_and_aggregate_by_period filtered sY sM eY eM aggregate_by).map
    (fun b => AnalysisRow.mk b.1 b.2.1
      (cargo_types.flatMap (fun ct =>
        match cargoCols ct with
        | none => []
        | some (cin, cout) =>
          [(ct.capitalize ++ "_Ports",
            (flowCargoField ct efficiency_level min_volume_threshold
              top_n b.2.2 cin cout).1),
           (ct.capitalize ++ "_Avg_Efficiency",
            (flowCargoField ct efficiency_level min_volume_threshold
              top_n b.2.2 cin cout).2)])))

/-! ## HubUtilization (`analyze_hub_utilization`, lines 143-209) -/

/-- One row of the hub grouped frame. -/
structure HubAgg where
  port : String
  totalPassengers : ℚ
  totalFreight : ℚ
  totalMail : ℚ
  uniqueRoutes : Nat
deriving DecidableEq

/-- Lines 156-172: `groupby('AustralianPort')` with the three sums and
`Route: 'nunique'`. -/
def hubGroup (pd : List TrafficRecord) : List HubAgg :=
  (portKeys pd).map (fun p =>
    HubAgg.mk p
      (((pd.filter (fun r => decide (r.AustralianPort = p))).map
        TrafficRecord.Passengers_Total).sum)
      (((pd.filter (fun r => decide (r.AustralianPort = p))).map
        TrafficRecord.Freight_Total).sum)
      (((pd.filter (fun r => decide (r.AustralianPort = p))).map
        TrafficRecord.Mail_Total).sum)
      (((pd.filter (fun r => decide (r.AustralianPort = p))).map route).dedup.length))

/-- Lines 176-180: the passenger-equivalent volume with the cargo weights. -/
def totalPassengerEquiv (wf wm : ℚ) (h : HubAgg) : ℚ :=
  h.totalPassengers + h.totalFreight * wf + h.totalMail * wm

/-- Line 181: `totalPassengerEquiv / Unique_Routes`. -/
def utilizationScore (wf wm : ℚ) (h : HubAgg) : ℚ :=
  totalPassengerEquiv wf wm h / (h.uniqueRoutes : ℚ)

/-- The three "No data" hub fields (lines 194-205). -/
def hubNoData : List (String × String) :=
  [("Hub_Ports", "No data"), ("Avg_Utilization_Score", "No data"),
   ("Avg_Routes", "No data")]

/-- `analyze_hub_utilization` (lines 143-209); the weights default to
`get_default_cargo_weights()`, i.e. `wf = 10`, `wm = 20`. -/
def analyze_hub_utilization (df : List TrafficRecord) (sY sM eY eM : Int)
    (aggregate_by utilization_level : String) (specific_ports : List String)
    (min_routes_threshold : Int) (wf wm : ℚ) (top_n : Nat) : List AnalysisRow :=
  let filtered := filter_data_by_period df sY sM eY eM
  let filtered := if specific_ports ≠ [] then
      filtered.filter (fun r => decide (r.AustralianPort ∈ specific_ports))
    else filtered
  (filter_and_aggregate_by_period filtered sY sM eY eM aggregate_by).map
    (fun b =>
      let hubData := hubGroup b.2.2
      AnalysisRow.mk b.1 b.2.1
        (if hubData.isEmpty then hubNoData
        else
          let kept := hubData.filter
            (fun h => decide (min_routes_threshold ≤ (h.uniqueRoutes : Int)))
          if kept.isEmpty then hubNoData
          else
            let top := get_top_entities kept (utilizationScore wf wm)
              utilization_level top_n
            [("Hub_Ports", String.intercalate ", " (top.map HubAgg.port)),
             ("Avg_Utilization_Score",
              formatFixed 1 (mean (top.map (utilizationScore wf wm)))),
             ("Avg_Routes",
              formatFixed 1 (mean (top.map (fun h => (h.uniqueRoutes : ℚ)))))]))

/-! ## GeographicalPatterns (`analyze_geographical_patterns`, lines 211-255) -/

/-- One row of the country-performance table. -/
structure CountryPerfRow where
  country : String
  passengers : ℚ
  freight : ℚ
  mail : ℚ
  routes : Nat
deriving DecidableEq

/-- Sorted distinct countries (`groupby('Country')`). -/
def countryKeys (rs : List TrafficRecord) : List String :=
  keysSorted (rs.map TrafficRecord.Country)

/-- Lines 217-226: country totals, ranked descending by total passengers,
`head(top_n)`. -/
def countryPerformance (rs : List TrafficRecord) (top_n : Nat) :
    List CountryPerfRow :=
  let t := (countryKeys rs).map (fun c =>
    CountryPerfRow.mk c
      (((rs.filter (fun r => decide (r.Country = c))).map
        TrafficRecord.Passengers_Total).sum)
      (((rs.filter (fun r => decide (r.Country = c))).map
        TrafficRecord.Freight_Total).sum)
      (((rs.filter (fun r => decide (r.Country = c))).map
        TrafficRecord.Mail_Total).sum)
      (((rs.filter (fun r => decide (r.Country = c))).map route).dedup.length))
  (sortBy (fun a b => decide (b.passengers ≤ a.passengers)) t).take top_n

/-- One row of the port-connectivity table. -/
structure PortConnRow where
  port : String
  countries : Nat
  foreignPorts : Nat
  passengers : ℚ
deriving DecidableEq

/-- Lines 228-236: port connectivity, ranked descending by distinct-country
count, `head(top_n)`. -/
def portConnectivity (rs : List TrafficRecord) (top_n : Nat) : List PortConnRow :=
  let t := (portKeys rs).map (fun p =>
    PortConnRow.mk p
      (((rs.filter (fun r => decide (r.AustralianPort = p))).map
        TrafficRecord.Country).dedup.length)
      (((rs.filter (fun r => decide (r.AustralianPort = p))).map
        TrafficRecord.ForeignPort).dedup.length)
      (((rs.filter (fun r => decide (r.AustralianPort = p))).map
        TrafficRecord.Passengers_Total).sum))
  (sortBy (fun a b => decide (b.countries ≤ a.countries)) t).take top_n

/-- Ascending (Year, Country) order of the `groupby(['Year','Country'])` index. -/
def pairYCLe (a b : Int × String) : Bool :=
  decide (a.1 < b.1) || (decide (a.1 = b.1) && strLe a.2 b.2)

/-- Distinct (Year, Country) pairs of the filtered frame, in index order. -/
def yearCountryPairs (rs : List TrafficRecord) : List (Int × String) :=
  sortBy pairYCLe ((rs.map (fun r => (r.Year, r.Country))).dedup)

/-- `Passengers_Total` summed for one (Year, Country) group. -/
def sumYC (rs : List TrafficRecord) (y : Int) (c : String) : ℚ :=
  ((rs.filter (fun r => decide (r.Year = y ∧ r.Country = c))).map
    TrafficRecord.Passengers_Total).sum

/-- The rows of `yearly_country` (lines 239-241), in frame order. -/
def yearlyCountryRows (rs : List TrafficRecord) : List (Int × String × ℚ) :=
  (yearCountryPairs rs).map (fun p => (p.1, p.2, sumYC rs p.1 p.2))

/-- The value of a float cell of `growth_rate`: a real number, NaN, or a
signed infinity — the division `(v - p) / p * 100` runs on floats and `p` may
be zero. -/
inductive FloatVal
  | nan
  | negInf
  | finite (q : ℚ)
  | posInf
deriving DecidableEq

/-- `(v - p) / p * 100` under IEEE float semantics when `p = 0`. -/
def growthVal (v p : ℚ) : FloatVal :=
  if p = 0 then
    if 0 < v - p then FloatVal.posInf
    else if v - p < 0 then FloatVal.negInf
    else FloatVal.nan
  else FloatVal.finite ((v - p) / p * 100)

/-- One row of `yearly_country` after the growth computation. -/
structure GrowthRow where
  year : Int
  country : String
  passengers : ℚ
  prev : Option ℚ
  growth : FloatVal
deriving DecidableEq

/-- `groupby('Country').shift(1)` at one row: the value of the last earlier
row (in frame order) with the same country. -/
def prevOf (seen : List (Int × String × ℚ)) (c : String) : Option ℚ :=
  ((seen.filter (fun t => decide (t.2.1 = c))).map (fun t => t.2.2)).getLast?

/-- Lines 244-248: walk the frame in order, attaching the shifted previous
value and the growth rate; a missing shifted value is NaN and propagates to a
NaN growth. -/
def shiftGrowth (seen rows : List (Int × String × ℚ)) : List GrowthRow :=
  match rows with
  | [] => []
  | t :: rest =>
    GrowthRow.mk t.1 t.2.1 t.2.2 (prevOf seen t.2.1)
      (match prevOf seen t.2.1 with
       | none => FloatVal.nan
       | some p => growthVal t.2.2 p) :: shiftGrowth (seen ++ [t]) rest

/-- Line 250: `yearly_country['Year'].max()`. -/
def latestYearOf (rs : List TrafficRecord) : Option Int :=
  listMax ((yearlyCountryRows rs).map (fun t => t.1))

/-- Line 251: the latest-year rows with `dropna()` applied: a row is dropped
when its shifted value is missing or its growth is NaN. -/
def latestGrowthRows (rs : List TrafficRecord) : List GrowthRow :=
  match latestYearOf rs with
  | none => []
  | some latest =>
    (shiftGrowth [] (yearlyCountryRows rs)).filter
      (fun g => decide (g.year = latest) && g.prev.isSome &&
        decide (g.growth ≠ FloatVal.nan))

/-- Order on float values: `-inf < finite < +inf`; NaN (sorted first by
pandas) never reaches the sort here because `dropna` removed it. -/
def floatLe : FloatVal → FloatVal → Bool
  | FloatVal.nan, _ => true
  | _, FloatVal.nan => false
  | FloatVal.negInf, _ => true
  | _, FloatVal.negInf => false
  | FloatVal.finite a, FloatVal.finite b => decide (a ≤ b)
  | FloatVal.finite _, FloatVal.posInf => true
  | FloatVal.posInf, FloatVal.posInf => true
  | FloatVal.posInf, FloatVal.finite _ => false

/-- Line 253: `sort_values('growth_rate', ascending=False).head(top_n)`. -/
def regionalGrowth (rs : List TrafficRecord) (top_n : Nat) : List GrowthRow :=
  (sortBy (fun a b => floatLe b.growth a.growth) (latestGrowthRows rs)).take top_n

/-- The result of `analyze_geographical_patterns`: one table shape per
pattern type, or the empty frame of line 255. -/
inductive GeoResult
  | countryTable (rows : List CountryPerfRow)
  | connectivityTable (rows : List PortConnRow)
  | growthTable (rows : List GrowthRow)
  | emptyFrame
deriving DecidableEq

/-- `analyze_geographical_patterns` (lines 211-255).  The body contains no
`raise`: an unknown `pattern_type` falls through to `return pd.DataFrame()`
(an empty frame), and the period filter has already run by then. -/
def analyze_geographical_patterns (df : List TrafficRecord) (sY sM eY eM : Int)
    (pattern_type : String) (top_n : Nat) : GeoResult :=
  let filtered := filter_data_by_period df sY sM eY eM
  if pattern_type = "country_performance" then
    GeoResult.countryTable (countryPerformance filtered top_n)
  else if pattern_type = "port_connectivity" then
    GeoResult.connectivityTable (portConnectivity filtered top_n)
  else if pattern_type = "regional_growth" then
    GeoResult.growthTable (regionalGrowth filtered top_n)
  else GeoResult.emptyFrame

/-! ## Lemmas about the regional-growth pipeline -/

theorem pairYCLe_total (a b : Int × String) :
    pairYCLe a b = true ∨ pairYCLe b a = true := by
  simp only [pairYCLe, Bool.or_eq_true, Bool.and_eq_true, decide_eq_true_eq]
  rcases lt_trichotomy a.1 b.1 with h | h | h
  · exact Or.inl (Or.inl h)
  · rcases strLe_total a.2 b.2 with hs | hs
    · exact Or.inl (Or.inr ⟨h, hs⟩)
    · exact Or.inr (Or.inr ⟨h.symm, hs⟩)
  · exact Or.inr (Or.inl h)

theorem pairYCLe_trans (a b c : Int × String) (h1 : pairYCLe a b = true)
    (h2 : pairYCLe b c = true) : pairYCLe a c = true := by
  simp only [pairYCLe, Bool.or_eq_true, Bool.and_eq_true, decide_eq_true_eq] at h1 h2 ⊢
  rcases h1 with h1 | ⟨h1e, h1s⟩
  · rcases h2 with h2 | ⟨h2e, h2s⟩
    · exact Or.inl (lt_trans h1 h2)
    · exact Or.inl (by omega)
  · rcases h2 with h2 | ⟨h2e, h2s⟩
    · exact Or.inl (by omega)
    · exact Or.inr ⟨by omega, strLe_trans _ _ _ h1s h2s⟩

theorem floatLe_total (a b : FloatVal) : floatLe a b = true ∨ floatLe b a = true := by
  cases a <;> cases b <;> simp [floatLe] <;> exact le_total _ _

theorem floatLe_trans (a b c : FloatVal) (h1 : floatLe a b = true)
    (h2 : floatLe b c = true) : floatLe a c = true := by
  cases a <;> cases b <;> cases c <;> simp_all [floatLe] <;> linarith

theorem yearCountryPairs_sorted (rs : List TrafficRecord) :
    (yearCountryPairs rs).Pairwise (fun a b => pairYCLe a b = true) :=
  sortBy_pairwise pairYCLe_total pairYCLe_trans _

theorem yearCountryPairs_nodup (rs : List TrafficRecord) :
    (yearCountryPairs rs).Nodup := sortBy_nodup (List.nodup_dedup _)

theorem yearlyCountryRows_nodup (rs : List TrafficRecord) :
    (yearlyCountryRows rs).Nodup := by
  apply List.Nodup.map ?_ (yearCountryPairs_nodup rs)
  intro p q h
  have h1 : p.1 = q.1 := congrArg (fun t => t.1) h
  have h2 : p.2 = q.2 := congrArg (fun t => t.2.1) h
  exact Prod.ext h1 h2

theorem mem_yearlyCountryRows {rs : List TrafficRecord} {t : Int × String × ℚ} :
    t ∈ yearlyCountryRows rs ↔
      (t.1, t.2.1) ∈ yearCountryPairs rs ∧ t.2.2 = sumYC rs t.1 t.2.1 := by
  simp only [yearlyCountryRows, List.mem_map]
  constructor
  · rintro ⟨p, hp, rfl⟩
    exact ⟨hp, rfl⟩
  · rintro ⟨hp, hv⟩
    refine ⟨(t.1, t.2.1), hp, ?_⟩
    rw [← hv]

theorem shiftGrowth_append (seen l1 l2 : List (Int × String × ℚ)) :
    shiftGrowth seen (l1 ++ l2) =
      shiftGrowth seen l1 ++ shiftGrowth (seen ++ l1) l2 := by
  induction l1 generalizing seen with
  | nil => simp [shiftGrowth]
  | cons t rest ih =>
    rw [List.cons_append, shiftGrowth, shiftGrowth, List.cons_append,
      ih (seen ++ [t])]
    simp [List.append_assoc]

theorem shiftGrowth_of_split (l1 l2 : List (Int × String × ℚ))
    (t : Int × String × ℚ) :
    GrowthRow.mk t.1 t.2.1 t.2.2 (prevOf l1 t.2.1)
      (match prevOf l1 t.2.1 with
       | none => FloatVal.nan
       | some p => growthVal t.2.2 p) ∈ shiftGrowth [] (l1 ++ t :: l2) := by
  rw [shiftGrowth_append, List.nil_append]
  exact List.mem_append_right _ (List.mem_cons_self _ _)

theorem shiftGrowth_mem {seen l : List (Int × String × ℚ)} {g : GrowthRow}
    (h : g ∈ shiftGrowth seen l) :
    ∃ l1 l2, l = l1 ++ (g.year, g.country, g.passengers) :: l2 ∧
      g.prev = prevOf (seen ++ l1) g.country ∧
      g.growth = (match g.prev with
        | none => FloatVal.nan
        | some p => growthVal g.passengers p) := by
  induction l generalizing seen with
  | nil => simp [shiftGrowth] at h
  | cons t rest ih =>
    rw [shiftGrowth] at h
    rcases List.mem_cons.mp h with rfl | hmem
    · exact ⟨[], rest, rfl, by simp, rfl⟩
    · rcases ih hmem with ⟨l1, l2, heq, hprev, hgrowth⟩
      refine ⟨t :: l1, l2, by rw [heq]; rfl, ?_, hgrowth⟩
      rw [hprev]
      simp [List.append_assoc]

theorem prevOf_isSome {seen : List (Int × String × ℚ)} {c : String}
    (h : (prevOf seen c).isSome = true) : ∃ t ∈ seen, t.2.1 = c := by
  rw [prevOf, List.getLast?_isSome] at h
  have hf : seen.filter (fun t => decide (t.2.1 = c)) ≠ [] := by
    intro hc
    rw [hc] at h
    simp at h
  rcases List.exists_mem_of_ne_nil _ hf with ⟨t, ht⟩
  rcases List.mem_filter.mp ht with ⟨hmem, hp⟩
  exact ⟨t, hmem, by simpa using hp⟩

/-! ## Claim C8: regional growth is latest-year only, baseline required -/

/-- Claim C8: `analyze_geographical_patterns` with `regional_growth` outputs
only rows of the latest observed year of the filtered data; a country whose
observed (Year, Country) pairs all lie in that latest year (no earlier
baseline) never appears; the rows are in descending growth-rate order; and at
most `top_n` rows are returned. -/
theorem C8_regional_growth (df : List TrafficRecord) (sY sM eY eM : Int)
    (top_n : Nat) (out : List GrowthRow) (latest : Int)
    (hout : analyze_geographical_patterns df sY sM eY eM "regional_growth"
      top_n = GeoResult.growthTable out)
    (hL : latestYearOf (filter_data_by_period df sY sM eY eM) = some latest) :
    (∀ g ∈ out, g.year = latest) ∧
    (∀ c : String,
      (∀ y : Int, (y, c) ∈ yearCountryPairs (filter_data_by_period df sY sM eY eM) →
        y = latest) →
      ∀ g ∈ out, g.country ≠ c) ∧
    out.Pairwise (fun a b => floatLe b.growth a.growth = true) ∧
    out.length ≤ top_n := by
  rw [analyze_geographical_patterns] at hout
  rw [if_neg (by decide), if_neg (by decide), if_pos rfl] at hout
  injection hout with hout
  subst hout
  set f := filter_data_by_period df sY sM eY eM with hf
  have hmem_lgr : ∀ g ∈ regionalGrowth f top_n, g ∈ latestGrowthRows f := by
    intro g hg
    rw [regionalGrowth] at hg
    exact mem_sortBy.mp ((List.take_sublist _ _).subset hg)
  have hlgr : ∀ g ∈ latestGrowthRows f,
      g ∈ shiftGrowth [] (yearlyCountryRows f) ∧ g.year = latest ∧
        g.prev.isSome = true := by
    intro g hg
    rw [latestGrowthRows, hL] at hg
    rcases List.mem_filter.mp hg with ⟨hmem, hcond⟩
    simp only [Bool.and_eq_true, decide_eq_true_eq] at hcond
    exact ⟨hmem, hcond.1.1, hcond.1.2⟩
  refine ⟨?_, ?_, ?_, ?_⟩
  · intro g hg
    exact (hlgr g (hmem_lgr g hg)).2.1
  · intro c hc g hg hgc
    rcases hlgr g (hmem_lgr g hg) with ⟨hsg, hyear, hsome⟩
    rcases shiftGrowth_mem hsg with ⟨l1, l2, heq, hprev, _⟩
    have hsome1 : (prevOf l1 g.country).isSome = true := by
      rw [hprev] at hsome
      simpa using hsome
    rcases prevOf_isSome hsome1 with ⟨t, htl1, htc⟩
    have htyearly : t ∈ yearlyCountryRows f := by
      rw [heq]
      exact List.mem_append_left _ htl1
    rcases mem_yearlyCountryRows.mp htyearly with ⟨htp, htv⟩
    have htp2 : (t.1, c) ∈ yearCountryPairs f := by
      rw [← hgc, ← htc]
      exact htp
    have hty : t.1 = latest := hc t.1 htp2
    have hmyearly : (g.year, g.country, g.passengers) ∈ yearlyCountryRows f := by
      rw [heq]
      exact List.mem_append_right _ (List.mem_cons_self _ _)
    rcases mem_yearlyCountryRows.mp hmyearly with ⟨_, hgv⟩
    have hgv2 : g.passengers = sumYC f g.year g.country := by simpa using hgv
    have ht_eq : t = (g.year, g.country, g.passengers) := by
      have h3 : t.2.2 = g.passengers := by
        rw [htv, htc, hty, hgv2, hyear]
      have h1 : t.1 = g.year := by omega
      exact Prod.ext h1 (Prod.ext htc h3)
    have hnodup := yearlyCountryRows_nodup f
    rw [heq] at hnodup
    have hnodup2 : ((g.year, g.country, g.passengers) :: (l1 ++ l2)).Nodup :=
      List.perm_middle.nodup_iff.mp hnodup
    have hnotmem : (g.year, g.country, g.passengers) ∉ l1 ++ l2 :=
      (List.nodup_cons.mp hnodup2).1
    exact hnotmem (List.mem_append_left _ (ht_eq ▸ htl1))
  · rw [regionalGrowth]
    exact List.Pairwise.sublist (List.take_sublist _ _)
      (sortBy_pairwise (fun a b : GrowthRow => floatLe_total b.growth a.growth)
        (fun a b c : GrowthRow => fun h1 h2 =>
          floatLe_trans c.growth b.growth a.growth h2 h1) _)
  · rw [regionalGrowth]
    rw [List.length_take]
    exact min_le_left _ _

def dfC8 : List TrafficRecord :=
  [⟨2000, 6, "Sydney", "Rome", "A", 0, 0, 10, 0, 0, 0, 0, 0, 0⟩,
   ⟨2002, 6, "Sydney", "Rome", "A", 0, 0, 20, 0, 0, 0, 0, 0, 0⟩,
   ⟨2002, 6, "Sydney", "Oslo", "B", 0, 0, 5, 0, 0, 0, 0, 0, 0⟩]

def outC8 : List GrowthRow := [⟨2002, "A", 20, some 10, FloatVal.finite 100⟩]

/-- Witness for C8: country B, observed only in the latest year 2002, is
dropped; country A survives with growth (20-10)/10·100 = 100. -/
theorem C8_regional_growth_witness :
    (∀ g ∈ outC8, g.year = 2002) ∧ outC8.length ≤ 10 := by
  have hout : analyze_geographical_patterns dfC8 1999 1 2003 12
      "regional_growth" 10 = GeoResult.growthTable outC8 := by
    norm_num +decide [analyze_geographical_patterns, filter_data_by_period,
      inPeriod, regionalGrowth, latestGrowthRows, latestYearOf,
      yearlyCountryRows, yearCountryPairs, pairYCLe, strLe, sumYC, sortBy,
      insertLe, List.dedup, shiftGrowth, prevOf, growthVal, listMax, floatLe,
      dfC8, outC8, List.filter_cons, List.filter_nil, List.getLast?]
  have hL : latestYearOf (filter_data_by_period dfC8 1999 1 2003 12) =
      some 2002 := by
    norm_num +decide [latestYearOf, yearlyCountryRows, yearCountryPairs,
      pairYCLe, strLe, sumYC, sortBy, insertLe, List.dedup,
      filter_data_by_period, inPeriod, listMax, dfC8, List.filter_cons,
      List.filter_nil]
  have h := C8_regional_growth dfC8 1999 1 2003 12 10 outC8 2002 hout hL
  exact ⟨h.1, h.2.2.2⟩

/-! ## Claim C9: the hub utilization division is safe -/

theorem mem_portKeys {rs : List TrafficRecord} {p : String}
    (h : p ∈ portKeys rs) : ∃ r ∈ rs, r.AustralianPort = p := by
  rw [portKeys, keysSorted] at h
  rcases List.mem_map.mp (List.mem_dedup.mp (mem_sortBy.mp h)) with ⟨r, hr, rfl⟩
  exact ⟨r, hr, rfl⟩

/-- Claim C9: for any record set, period, granularity and any (possibly zero
or negative) `min_routes_threshold`, every port in a bucket's grouped hub
table aggregates at least one record, so its distinct-route count is at least
1; hence the denominator of `utilizationScore` is nonzero and the division
never divides by zero. -/
theorem C9_hub_division_safe (df : List TrafficRecord) (sY sM eY eM : Int)
    (aggregate_by : String) (min_routes_threshold : Int) (wf wm : ℚ)
    (y : Int) (m : Option Int) (pd : List TrafficRecord)
    (hb : (y, m, pd) ∈ filter_and_aggregate_by_period df sY sM eY eM aggregate_by)
    (h : HubAgg)
    (hh : h ∈ (hubGroup pd).filter
      (fun h => decide (min_routes_threshold ≤ (h.uniqueRoutes : Int)))) :
    1 ≤ h.uniqueRoutes ∧ ((h.uniqueRoutes : ℚ) ≠ 0) ∧
      utilizationScore wf wm h =
        totalPassengerEquiv wf wm h / (h.uniqueRoutes : ℚ) := by
  have hmem : h ∈ hubGroup pd := List.mem_of_mem_filter hh
  rcases List.mem_map.mp hmem with ⟨p, hp, rfl⟩
  rcases mem_portKeys hp with ⟨r, hr, hrp⟩
  have hroutes : 1 ≤
      (((pd.filter (fun r => decide (r.AustralianPort = p))).map route).dedup).length := by
    have hmem2 : route r ∈
        ((pd.filter (fun r => decide (r.AustralianPort = p))).map route).dedup := by
      rw [List.mem_dedup]
      exact List.mem_map_of_mem route (List.mem_filter.mpr ⟨hr, by simp [hrp]⟩)
    exact List.length_pos.mpr (List.ne_nil_of_mem hmem2)
  exact ⟨hroutes, Nat.cast_ne_zero.mpr (Nat.one_le_iff_ne_zero.mp hroutes), rfl⟩

def recC9 : TrafficRecord :=
  ⟨1985, 1, "Sydney", "London", "UK", 100, 80, 180, 0, 0, 0, 0, 0, 0⟩

def hubC9 : HubAgg := ⟨"Sydney", 180, 0, 0, 1⟩

/-- Witness for C9 with `min_routes_threshold = 0`. -/
theorem C9_hub_division_safe_witness :
    1 ≤ hubC9.uniqueRoutes ∧ ((hubC9.uniqueRoutes : ℚ) ≠ 0) ∧
      utilizationScore 10 20 hubC9 =
        totalPassengerEquiv 10 20 hubC9 / (hubC9.uniqueRoutes : ℚ) := by
  have hb : ((1985 : Int), (none : Option Int), [recC9]) ∈
      filter_and_aggregate_by_period [recC9] 1985 1 1985 12 "Year" := by
    norm_num +decide [filter_and_aggregate_by_period, filter_data_by_period,
      inPeriod, yearPeriods, sortBy, insertLe, List.dedup, bucketY, recC9,
      List.filter_cons, List.filter_nil]
  have hh : hubC9 ∈ (hubGroup [recC9]).filter
      (fun h => decide ((0 : Int) ≤ (h.uniqueRoutes : Int))) := by
    norm_num +decide [hubGroup, portKeys, keysSorted, sortBy, insertLe, strLe,
      List.dedup, route, recC9, List.filter_cons, List.filter_nil, hubC9]
  exact C9_hub_division_safe [recC9] 1985 1 1985 12 "Year" 0 10 20
    1985 none [recC9] hb hubC9 hh

/-! ## Claim C3: which entry points validate their enumerated arguments -/

theorem get_top_entities_default {α : Type} (data : List α) (score : α → ℚ)
    (level : String) (top_n : Nat) (h : level ≠ "Least") :
    get_top_entities data score level top_n =
      get_top_entities data score "Most" top_n := by
  by_cases hd : data.isEmpty
  · simp [get_top_entities, hd]
  · simp [get_top_entities, hd, h]

theorem flowCargoField_default (cargo_type level : String) (minVol : ℚ)
    (top_n : Nat) (pd : List TrafficRecord) (cin cout : TrafficRecord → ℚ)
    (h : level ≠ "Least") :
    flowCargoField cargo_type level minVol top_n pd cin cout =
      flowCargoField cargo_type "Most" minVol top_n pd cin cout := by
  simp only [flowCargoField]
  rw [get_top_entities_default _ _ _ _ h]

theorem filter_and_aggregate_default (df : List TrafficRecord)
    (sY sM eY eM : Int) (aggregate_by : String) (h : aggregate_by ≠ "Month") :
    filter_and_aggregate_by_period df sY sM eY eM aggregate_by =
      filter_and_aggregate_by_period df sY sM eY eM "Year" := by
  simp [filter_and_aggregate_by_period, h]

theorem flatMapCongr {α β : Type} {f g : α → List β} (l : List α)
    (h : ∀ a ∈ l, f a = g a) : l.flatMap f = l.flatMap g := by
  induction l with
  | nil => rfl
  | cons x xs ih =>
    simp only [List.flatMap_cons]
    rw [h x (List.mem_cons_self _ _),
      ih (fun a ha => h a (List.mem_cons_of_mem _ ha))]

def recC3 : TrafficRecord :=
  ⟨2000, 5, "Sydney", "Auckland", "NZ", 10, 10, 20, 0, 0, 0, 0, 0, 0⟩

/-- Claim C3 is false on the code: `analyze_geographical_patterns` with the
out-of-set patternType "bogus" returns a result (the empty frame) instead of
raising, and `analyze_port_flow_efficiency` with the out-of-set granularity
"Quarter" and level "Middling" returns a full result row instead of raising. -/
theorem C3_counterexample :
    analyze_geographical_patterns [recC3] 2000 1 2000 12 "bogus" 10 =
      GeoResult.emptyFrame ∧
    analyze_port_flow_efficiency [recC3] 2000 1 2000 12 ["passengers"]
      "Quarter" "Middling" [] 0 10 =
      [AnalysisRow.mk 2000 none
        [("Passengers_Ports", "Sydney"),
         ("Passengers_Avg_Efficiency", "0.909")]] := by
  constructor
  · rfl
  · have hround : roundHalfEven ((10:ℚ)/11 * 10 ^ 3) = 909 := by
      have hv : (10:ℚ)/11 * 10 ^ 3 = 10000/11 := by norm_num
      rw [roundHalfEven, hv, show ⌊(10000:ℚ)/11⌋ = 909 from by norm_num]
      norm_num
    have heff : formatFixed 3 ((10:ℚ)/11) = "0.909" := by
      simp only [formatFixed, hround]
      decide
    norm_num +decide [analyze_port_flow_efficiency, filter_data_by_period,
      inPeriod, filter_and_aggregate_by_period, yearPeriods, bucketY, sortBy,
      insertLe, List.dedup, cargoCols, flowCargoField, portKeys, keysSorted,
      strLe, sumPort, balance_ratio, cargo_efficiency, get_top_entities, mean,
      heff, recC3, List.filter_cons, List.filter_nil, abs]

/-- Claim C3 amended: only `analyze_traffic_routes` validates its enumerated
arguments eagerly (raising before any record is examined — the error is the
same for every record set); `analyze_geographical_patterns` performs no
validation and returns an empty frame for an unknown patternType (after
filtering), and `analyze_port_flow_efficiency` performs no validation: an
unknown `efficiency_level` behaves exactly as "Most", and an unknown
`aggregate_by` behaves exactly as "Year". -/
theorem C3_amended (df : List TrafficRecord) (sY sM eY eM : Int)
    (traffic_level traffic_type aggregate_by pattern_type efficiency_level : String)
    (cargo_types specific_ports : List String) (minVol : ℚ) (top_n : Nat)
    (htt : colMapping traffic_type = none)
    (hpt : pattern_type ≠ "country_performance" ∧
      pattern_type ≠ "port_connectivity" ∧ pattern_type ≠ "regional_growth")
    (hlvl : efficiency_level ≠ "Least")
    (hagg : aggregate_by ≠ "Month") :
    analyze_traffic_routes df sY sM eY eM traffic_level traffic_type aggregate_by =
      Except.error "traffic_type must be 'Passengers', 'Freight', or 'Mail'" ∧
    (traffic_level ≠ "Most" ∧ traffic_level ≠ "Least" →
      analyze_traffic_routes df sY sM eY eM traffic_level "Passengers" aggregate_by =
        Except.error "traffic_level must be 'Most' or 'Least'") ∧
    analyze_geographical_patterns df sY sM eY eM pattern_type top_n =
      GeoResult.emptyFrame ∧
    analyze_port_flow_efficiency df sY sM eY eM cargo_types aggregate_by
      efficiency_level specific_ports minVol top_n =
      analyze_port_flow_efficiency df sY sM eY eM cargo_types "Year" "Most"
        specific_ports minVol top_n := by
  refine ⟨?_, ?_, ?_, ?_⟩
  · simp only [analyze_traffic_routes, htt]
  · intro hbad
    have hcm : colMapping "Passengers" = some (TrafficRecord.Passengers_In,
        TrafficRecord.Passengers_Out, TrafficRecord.Passengers_Total, "") := rfl
    simp only [analyze_traffic_routes, hcm]
    rw [if_pos hbad]
  · rcases hpt with ⟨h1, h2, h3⟩
    simp only [analyze_geographical_patterns]
    rw [if_neg h1, if_neg h2, if_neg h3]
  · simp only [analyze_port_flow_efficiency]
    rw [filter_and_aggregate_default _ _ _ _ _ _ hagg]
    apply List.map_congr_left
    intro b _
    congr 1
    apply flatMapCongr
    intro ct _
    rcases hcc : cargoCols ct with _ | ⟨cin, cout⟩
    · simp [hcc]
    · simp only [hcc]
      rw [flowCargoField_default _ _ _ _ _ _ _ hlvl]

/-- Witness for C3 (amended): a bad traffic type raises; a bad pattern type
returns the empty frame. -/
theorem C3_amended_witness :
    analyze_traffic_routes [recC3] 2000 1 2000 12 "Most" "Cargo" "Year" =
      Except.error "traffic_type must be 'Passengers', 'Freight', or 'Mail'" ∧
    analyze_geographical_patterns [recC3] 2000 1 2000 12 "bogus2" 10 =
      GeoResult.emptyFrame :=
  ⟨(C3_amended [recC3] 2000 1 2000 12 "Most" "Cargo" "Year" "bogus2" "Middling"
      ["passengers"] [] 0 10 rfl (by decide) (by decide) (by decide)).1,
   (C3_amended [recC3] 2000 1 2000 12 "Most" "Cargo" "Year" "bogus2" "Middling"
      ["passengers"] [] 0 10 rfl (by decide) (by decide) (by decide)).2.2.1⟩

/-! ## Claim C10: the growth baseline is the previous observed year -/

theorem mem_of_getLast? {α : Type} {l : List α} {a : α}
    (h : l.getLast? = some a) : a ∈ l := by
  induction l with
  | nil => simp at h
  | cons x xs ih =>
    cases xs with
    | nil =>
      simp only [List.getLast?_singleton, Option.some.injEq] at h
      subst h
      exact List.mem_singleton.mpr rfl
    | cons y ys =>
      rw [List.getLast?_cons_cons] at h
      exact List.mem_cons_of_mem _ (ih h)

theorem listMax_of_sorted {α : Type} [LinearOrder α] {l : List α}
    (h : l.Pairwise (fun a b : α => a ≤ b)) : listMax l = l.getLast? := by
  induction l with
  | nil => rfl
  | cons x xs ih =>
    rcases List.pairwise_cons.mp h with ⟨hx, hxs⟩
    cases xs with
    | nil => rfl
    | cons y ys =>
      rw [listMax, ih hxs]
      rcases hm : (y :: ys : List α).getLast? with _ | m
      · have hsome : ((y :: ys : List α).getLast?).isSome = true :=
          List.getLast?_isSome.mpr (by simp)
        rw [hm] at hsome
        simp at hsome
      · have hmem : m ∈ y :: ys := mem_of_getLast? hm
        have hxm : x ≤ m := hx m hmem
        rw [List.getLast?_cons_cons, hm]
        show some (if x ≤ m then m else x) = some m
        rw [if_pos hxm]

theorem filter_map_comm {α β : Type} (f : α → β) (p : β → Bool) (l : List α) :
    (l.map f).filter p = (l.filter (fun a => p (f a))).map f := by
  induction l with
  | nil => rfl
  | cons x xs ih =>
    simp only [List.map_cons, List.filter_cons]
    by_cases h : p (f x)
    · simp [h, ih]
    · simp [h, ih]

/-- Claim C10 amended: in `regional_growth` the baseline of a country `c`
that appears in the latest year is its aggregate at its most recent earlier
observed year `ystar` within the filtered range — not necessarily the
calendar year before — and `c` is included in the growth table across any gap
of missing years, except in the degenerate case in which both the baseline
and the latest aggregate are zero (the float growth is then NaN, and
`dropna` removes the row); when the baseline is nonzero the growth is
`(latest − baseline) / baseline · 100`. -/
theorem C10_amended (df : List TrafficRecord) (sY sM eY eM : Int)
    (c : String) (latest ystar : Int)
    (hL : latestYearOf (filter_data_by_period df sY sM eY eM) = some latest)
    (hobs : (latest, c) ∈ yearCountryPairs (filter_data_by_period df sY sM eY eM))
    (hstar : listMax (((yearCountryPairs (filter_data_by_period df sY sM eY eM)).filter
        (fun q => decide (q.2 = c) && decide (q.1 < latest))).map Prod.fst) =
      some ystar)
    (hnn : ¬(sumYC (filter_data_by_period df sY sM eY eM) ystar c = 0 ∧
        sumYC (filter_data_by_period df sY sM eY eM) latest c = 0)) :
    ∃ g ∈ latestGrowthRows (filter_data_by_period df sY sM eY eM),
      g.country = c ∧ g.year = latest ∧
      g.passengers = sumYC (filter_data_by_period df sY sM eY eM) latest c ∧
      g.prev = some (sumYC (filter_data_by_period df sY sM eY eM) ystar c) ∧
      (sumYC (filter_data_by_period df sY sM eY eM) ystar c ≠ 0 →
        g.growth = FloatVal.finite
          ((sumYC (filter_data_by_period df sY sM eY eM) latest c -
            sumYC (filter_data_by_period df sY sM eY eM) ystar c) /
            sumYC (filter_data_by_period df sY sM eY eM) ystar c * 100)) := by
  set f := filter_data_by_period df sY sM eY eM with hfdef
  rcases List.append_of_mem hobs with ⟨P1, P2, hsplit⟩
  have hsorted := yearCountryPairs_sorted f
  have hnodup := yearCountryPairs_nodup f
  rw [hsplit] at hsorted hnodup
  rcases List.pairwise_append.mp hsorted with ⟨hpw1, hpw2, hcross⟩
  have hmid_notmem : (latest, c) ∉ P1 ++ P2 :=
    (List.nodup_cons.mp (List.perm_middle.nodup_iff.mp hnodup)).1
  have hP1 : ∀ q ∈ P1, (decide (q.2 = c) && decide (q.1 < latest)) =
      decide (q.2 = c) := by
    intro q hq
    by_cases hqc : q.2 = c
    · have hle : pairYCLe q (latest, c) = true :=
        hcross q hq (latest, c) (List.mem_cons_self _ _)
      have hne : q ≠ (latest, c) := by
        intro hqe
        exact hmid_notmem (List.mem_append_left _ (hqe ▸ hq))
      have hlt : q.1 < latest := by
        simp only [pairYCLe, Bool.or_eq_true, Bool.and_eq_true,
          decide_eq_true_eq] at hle
        rcases hle with h | ⟨he, _⟩
        · exact h
        · exact absurd (Prod.ext he hqc) hne
      rw [decide_eq_true hqc, decide_eq_true hlt]
      rfl
    · rw [decide_eq_false hqc]
      rfl
  have hP2 : ∀ q ∈ P2, ¬((decide (q.2 = c) && decide (q.1 < latest)) = true) := by
    intro q hq hcond
    simp only [Bool.and_eq_true, decide_eq_true_eq] at hcond
    have hle : pairYCLe (latest, c) q = true :=
      List.rel_of_pairwise_cons hpw2 hq
    simp only [pairYCLe, Bool.or_eq_true, Bool.and_eq_true,
      decide_eq_true_eq] at hle
    rcases hle with h | ⟨he, _⟩ <;> omega
  have hE : (yearCountryPairs f).filter
      (fun q => decide (q.2 = c) && decide (q.1 < latest)) =
      P1.filter (fun q => decide (q.2 = c)) := by
    have hP2nil : P2.filter
        (fun q => decide (q.2 = c) && decide (q.1 < latest)) = [] := by
      rw [List.filter_eq_nil_iff]
      exact hP2
    rw [hsplit, List.filter_append, List.filter_cons, List.filter_congr hP1,
      hP2nil]
    simp
  have hEpairwise : ((yearCountryPairs f).filter
      (fun q => decide (q.2 = c) && decide (q.1 < latest))).Pairwise
      (fun a b => pairYCLe a b = true) :=
    List.Pairwise.sublist (List.filter_sublist _) (yearCountryPairs_sorted f)
  have hyears : (((yearCountryPairs f).filter
      (fun q => decide (q.2 = c) && decide (q.1 < latest))).map Prod.fst).Pairwise
      (fun a b : Int => a ≤ b) := by
    rw [List.pairwise_map]
    refine hEpairwise.imp ?_
    intro a b hab
    simp only [pairYCLe, Bool.or_eq_true, Bool.and_eq_true,
      decide_eq_true_eq] at hab
    rcases hab with h | ⟨he, _⟩ <;> omega
  have hlast : (((yearCountryPairs f).filter
      (fun q => decide (q.2 = c) && decide (q.1 < latest))).map Prod.fst).getLast? =
      some ystar := by
    rw [← listMax_of_sorted hyears]
    exact hstar
  rw [List.getLast?_map] at hlast
  rcases Option.map_eq_some'.mp hlast with ⟨q, hqlast, hq1⟩
  have hqmem := mem_of_getLast? hqlast
  have hq2 : q.2 = c := by
    have hcond := (List.mem_filter.mp hqmem).2
    simp only [Bool.and_eq_true, decide_eq_true_eq] at hcond
    exact hcond.1
  have hqeq : q = (ystar, c) := Prod.ext hq1 hq2
  have hprev : prevOf (P1.map (fun p => (p.1, p.2, sumYC f p.1 p.2))) c =
      some (sumYC f ystar c) := by
    rw [prevOf, filter_map_comm, List.map_map]
    have hsame : P1.filter (fun p =>
        decide ((((p.1, p.2, sumYC f p.1 p.2) : Int × String × ℚ)).2.1 = c)) =
        P1.filter (fun q => decide (q.2 = c)) := by
      apply List.filter_congr
      intro a _
      rfl
    rw [hsame, ← hE, List.getLast?_map, hqlast, hqeq]
    rfl
  have hsplit_yearly : yearlyCountryRows f =
      P1.map (fun p => (p.1, p.2, sumYC f p.1 p.2)) ++
      (latest, c, sumYC f latest c) ::
      P2.map (fun p => (p.1, p.2, sumYC f p.1 p.2)) := by
    rw [yearlyCountryRows, hsplit, List.map_append, List.map_cons]
  have hg := shiftGrowth_of_split
    (P1.map (fun p => (p.1, p.2, sumYC f p.1 p.2)))
    (P2.map (fun p => (p.1, p.2, sumYC f p.1 p.2)))
    (latest, c, sumYC f latest c)
  rw [← hsplit_yearly] at hg
  have hg2 : GrowthRow.mk latest c (sumYC f latest c)
      (prevOf (P1.map (fun p => (p.1, p.2, sumYC f p.1 p.2))) c)
      (match prevOf (P1.map (fun p => (p.1, p.2, sumYC f p.1 p.2))) c with
       | none => FloatVal.nan
       | some p => growthVal (sumYC f latest c) p) ∈
      shiftGrowth [] (yearlyCountryRows f) := hg
  rw [hprev] at hg2
  have hg3 : GrowthRow.mk latest c (sumYC f latest c)
      (some (sumYC f ystar c))
      (growthVal (sumYC f latest c) (sumYC f ystar c)) ∈
      shiftGrowth [] (yearlyCountryRows f) := hg2
  refine ⟨GrowthRow.mk latest c (sumYC f latest c)
      (some (sumYC f ystar c))
      (growthVal (sumYC f latest c) (sumYC f ystar c)),
    ?_, rfl, rfl, rfl, rfl, ?_⟩
  · rw [latestGrowthRows, hL]
    apply List.mem_filter.mpr
    refine ⟨hg3, ?_⟩
    simp only [Bool.and_eq_true, decide_eq_true_eq]
    refine ⟨⟨trivial, rfl⟩, ?_⟩
    by_cases hp0 : sumYC f ystar c = 0
    · have hv0 : sumYC f latest c ≠ 0 := fun hv => hnn ⟨hp0, hv⟩
      rw [growthVal, if_pos hp0, hp0, sub_zero]
      rcases lt_or_gt_of_ne hv0 with h | h
      · rw [if_neg (not_lt.mpr (le_of_lt h)), if_pos h]
        simp
      · rw [if_pos h]
        simp
    · rw [growthVal, if_neg hp0]
      simp
  · intro hp0
    rw [growthVal, if_neg hp0]

def dfC10 : List TrafficRecord :=
  [⟨2000, 6, "Sydney", "Rome", "A", 0, 0, 0, 0, 0, 0, 0, 0, 0⟩,
   ⟨2002, 6, "Sydney", "Rome", "A", 0, 0, 0, 0, 0, 0, 0, 0, 0⟩]

/-- Claim C10 as stated is false on the code in one degenerate case: country
A is observed in the latest year 2002 and in the earlier year 2000 (with a
gap at 2001), yet it is absent from the growth output, because both
aggregates are 0, so the float growth (0−0)/0 is NaN and `dropna` drops the
row. -/
theorem C10_counterexample :
    (2002, "A") ∈ yearCountryPairs (filter_data_by_period dfC10 1999 1 2003 12) ∧
    (2000, "A") ∈ yearCountryPairs (filter_data_by_period dfC10 1999 1 2003 12) ∧
    latestYearOf (filter_data_by_period dfC10 1999 1 2003 12) = some 2002 ∧
    latestGrowthRows (filter_data_by_period dfC10 1999 1 2003 12) = [] := by
  refine ⟨?_, ?_, ?_, ?_⟩ <;>
    norm_num +decide [yearCountryPairs, pairYCLe, strLe, sortBy, insertLe,
      List.dedup, filter_data_by_period, inPeriod, dfC10, latestYearOf,
      yearlyCountryRows, sumYC, listMax, latestGrowthRows, shiftGrowth, prevOf,
      growthVal, List.filter_cons, List.filter_nil, List.getLast?]

/-- Witness for C10 (amended) on `dfC8`: country A has latest year 2002 and
previous observed year 2000 across the missing year 2001. -/
theorem C10_amended_witness :
    ∃ g ∈ latestGrowthRows (filter_data_by_period dfC8 1999 1 2003 12),
      g.country = "A" ∧ g.year = 2002 ∧
      g.passengers = sumYC (filter_data_by_period dfC8 1999 1 2003 12) 2002 "A" ∧
      g.prev = some (sumYC (filter_data_by_period dfC8 1999 1 2003 12) 2000 "A") ∧
      (sumYC (filter_data_by_period dfC8 1999 1 2003 12) 2000 "A" ≠ 0 →
        g.growth = FloatVal.finite
          ((sumYC (filter_data_by_period dfC8 1999 1 2003 12) 2002 "A" -
            sumYC (filter_data_by_period dfC8 1999 1 2003 12) 2000 "A") /
            sumYC (filter_data_by_period dfC8 1999 1 2003 12) 2000 "A" * 100)) := by
  apply C10_amended dfC8 1999 1 2003 12 "A" 2002 2000
  · norm_num +decide [latestYearOf, yearlyCountryRows, yearCountryPairs,
      pairYCLe, strLe, sumYC, sortBy, insertLe, List.dedup,
      filter_data_by_period, inPeriod, listMax, dfC8, List.filter_cons,
      List.filter_nil]
  · norm_num +decide [yearCountryPairs, pairYCLe, strLe, sortBy, insertLe,
      List.dedup, filter_data_by_period, inPeriod, dfC8, List.filter_cons,
      List.filter_nil]
  · norm_num +decide [yearCountryPairs, pairYCLe, strLe, sortBy, insertLe,
      List.dedup, filter_data_by_period, inPeriod, dfC8, listMax,
      List.filter_cons, List.filter_nil]
  · intro hcontra
    have h1 := hcontra.1
    norm_num +decide [sumYC, filter_data_by_period, inPeriod, dfC8,
      List.filter_cons, List.filter_nil] at h1
